import Mathlib

/-!
Shallow embedding of the reservation-payment backend (src/backend/server.py
together with the schema in src/backend/database.py).

The relational store is modelled as an explicit record of tables; each
handler threads the store and returns the rolled-back (original) store on
any error, mirroring the commit-at-end / rollback-on-exception structure of
the Python handlers.  The Stripe gateway is modelled as an injected oracle
(a record of fallible functions), per the configuration-injected-client
abstraction, and every handler additionally returns the ordered list of
gateway calls it made, so that claims about which external calls happen can
be stated.  Best-effort Slack notifications are fired after commit inside a
try/except that swallows every exception; they influence neither the result
nor the store, so they are omitted from the model.  Parsing of the
reservation time by the standard library is treated as total.
-/

namespace Ramen

/-- A row of the menus table (id, name, price, is_available).
Schema: price INTEGER CHECK (price >= 0). -/
structure Menu where
  id : Int
  name : String
  price : Int
  is_available : Bool
deriving Repr, DecidableEq

/-- A row of the reservations table (the columns the handlers read/write). -/
structure ReservationRow where
  id : Nat
  user_id : Nat
  reservation_date : String
  reservation_time : String
  number_of_people : Int
  special_requests : Option String
  status : String
  payment_intent_id : Option String
  amount : Option Int
  payment_status : String
deriving Repr, DecidableEq

/-- A row of the reservation_menu_items table. -/
structure LineItem where
  reservation_id : Nat
  menu_id : Int
  quantity : Int
deriving Repr, DecidableEq

/-- The relational store: users, menus, reservations, line items, and the
next value of the reservations id sequence. -/
structure DB where
  users : List Nat
  menus : List Menu
  reservations : List ReservationRow
  lineItems : List LineItem
  nextReservationId : Nat
deriving Repr, DecidableEq

/-- One (menu_id, quantity) pair of a request (MenuItemRequest).  Both
fields are plain Python ints, so they may be zero or negative. -/
structure MenuItemRequest where
  menu_id : Int
  quantity : Int
deriving Repr, DecidableEq

/-- Body of POST /api/reservations (ReservationCreate). -/
structure ReservationCreate where
  reservation_date : String
  reservation_time : String
  number_of_people : Int
  special_requests : Option String
  menu_items : List MenuItemRequest
  payment_intent_id : Option String
deriving Repr, DecidableEq

/-- A retrieved Stripe payment intent: status, amount, latest_charge.
latest_charge is `some c` when it is a string, `none` when it is absent or
an expanded (non-string) object. -/
structure PaymentIntent where
  status : String
  amount : Int
  latest_charge : Option String
deriving Repr, DecidableEq

/-- A payment intent freshly created by the gateway. -/
structure CreatedIntent where
  client_secret : String
  id : String
deriving Repr, DecidableEq

/-- A refund object returned by the gateway. -/
structure RefundObj where
  id : String
  amount : Int
  status : String
deriving Repr, DecidableEq

/-- The payment gateway oracle.  `Except.error ()` models the gateway call
raising (stripe.error.StripeError or any other exception). -/
structure Gateway where
  createIntent : Int → Except Unit CreatedIntent
  retrieveIntent : String → Except Unit PaymentIntent
  createRefund : String → Except Unit RefundObj

/-- Trace entry for one outbound gateway call. -/
inductive GatewayCall where
  | createIntent (amount : Int) (currency : String) (user_id : Nat)
  | retrieveIntent (id : String)
  | createRefund (charge : String)
deriving Repr, DecidableEq

/-- The user-visible error raised by a handler, one constructor per raise
site the claims are about.  stripeKeyMissing and internalError are HTTP
500; notFound is 404; the others are 400. -/
inductive ApiError where
  | stripeKeyMissing
  | noItemsSelected
  | unknownItem (menu_id : Int)
  | itemUnavailable (name : String)
  | nonPositiveTotal
  | stripeError
  | notFound
  | alreadyRefunded
  | paymentNotSucceeded
  | chargeNotFound
  | paymentIncomplete
  | internalError
deriving Repr, DecidableEq

/-! ## POST /api/payments/create-intent -/

/-- Response of create_payment_intent. -/
structure IntentResponse where
  client_secret : String
  payment_intent_id : String
  amount : Int
deriving Repr, DecidableEq

/-- The pricing loop of create_payment_intent: walk the requested pairs,
fail on an unknown or unavailable menu id, otherwise accumulate
price * quantity. -/
def computeTotal (menus : List Menu) (acc : Int) :
    List MenuItemRequest → Except ApiError Int
  | [] => .ok acc
  | it :: rest =>
    match menus.find? (fun m => m.id == it.menu_id) with
    | none => .error (.unknownItem it.menu_id)
    | some m =>
      if !m.is_available then .error (.itemUnavailable m.name)
      else computeTotal menus (acc + m.price * it.quantity) rest

/-- The price the store carries for a menu id (0 when absent); used only to
state what the computed total should be. -/
def menuPrice (menus : List Menu) (mid : Int) : Int :=
  match menus.find? (fun m => m.id == mid) with
  | some m => m.price
  | none => 0

/-- Specification-side total: the sum over the requested pairs of the
item's current price times the requested quantity. -/
def pairTotal (menus : List Menu) (items : List MenuItemRequest) : Int :=
  (items.map (fun it => menuPrice menus it.menu_id * it.quantity)).sum

/-- Handler of POST /api/payments/create-intent.  `apiKeySet` models
whether stripe.api_key is configured.  Returns the result and the gateway
calls made; the handler never writes the store. -/
def create_payment_intent (apiKeySet : Bool) (gw : Gateway) (db : DB)
    (menu_items : List MenuItemRequest) (userId : Nat) :
    Except ApiError IntentResponse × List GatewayCall :=
  if !apiKeySet then (.error .stripeKeyMissing, [])
  else if menu_items.isEmpty then (.error .noItemsSelected, [])
  else
    match computeTotal db.menus 0 menu_items with
    | .error e => (.error e, [])
    | .ok total =>
      if total ≤ 0 then (.error .nonPositiveTotal, [])
      else
        match gw.createIntent total with
        | .error _ => (.error .stripeError, [.createIntent total "jpy" userId])
        | .ok ci =>
          (.ok ⟨ci.client_secret, ci.id, total⟩,
           [.createIntent total "jpy" userId])

/-! ## POST /api/reservations -/

/-- One row of the menu join built for the response of create_reservation
(SELECT m.id, m.name, m.price, rmi.quantity ... INNER JOIN). -/
structure MenuJoinRow where
  id : Int
  name : String
  price : Int
  quantity : Int
deriving Repr, DecidableEq

/-- Response of create_reservation: the RETURNING row of the insert plus,
when menu items were requested, the join of the persisted line items with
the menus table.  (The Python handler returns the row dict with the
menu_items key added only when the request carried a non-empty list.) -/
structure CreateReservationResponse where
  row : ReservationRow
  menu_items : Option (List MenuJoinRow)
deriving Repr, DecidableEq

/-- INSERT INTO reservations ... RETURNING ...: fails (foreign key on
user_id, CHECK number_of_people > 0) when the user is absent or the party
size is not positive; otherwise appends the row, with status defaulting to
pending, and advances the id sequence. -/
def insertReservation (db : DB) (uid : Nat) (req : ReservationCreate)
    (pid : Option String) (amount : Option Int) (pstat : String) :
    Except Unit (DB × ReservationRow) :=
  if uid ∈ db.users ∧ 0 < req.number_of_people then
    let row : ReservationRow :=
      { id := db.nextReservationId
        user_id := uid
        reservation_date := req.reservation_date
        reservation_time := req.reservation_time
        number_of_people := req.number_of_people
        special_requests := req.special_requests
        status := "pending"
        payment_intent_id := pid
        amount := amount
        payment_status := pstat }
    .ok ({ db with
            reservations := db.reservations ++ [row]
            nextReservationId := db.nextReservationId + 1 }, row)
  else .error ()

/-- INSERT INTO reservation_menu_items: fails on the foreign key to menus,
the CHECK quantity > 0, or the UNIQUE (reservation_id, menu_id) constraint;
otherwise appends the line item. -/
def insertLineItem (db : DB) (rid : Nat) (it : MenuItemRequest) :
    Except Unit DB :=
  if (∃ m ∈ db.menus, m.id = it.menu_id) ∧ 0 < it.quantity ∧
      ¬ ∃ li ∈ db.lineItems, li.reservation_id = rid ∧ li.menu_id = it.menu_id then
    .ok { db with lineItems := db.lineItems ++ [⟨rid, it.menu_id, it.quantity⟩] }
  else .error ()

/-- The line-item insertion loop of create_reservation: insert the pairs in
request order, stopping at the first failing insert. -/
def insertLineItems (db : DB) (rid : Nat) :
    List MenuItemRequest → Except Unit DB
  | [] => .ok db
  | it :: rest =>
    match insertLineItem db rid it with
    | .error _ => .error ()
    | .ok db1 => insertLineItems db1 rid rest

/-- The post-commit join that builds the menu_items field of the response:
persisted line items of the new reservation whose menu id was requested,
inner-joined with the menus table. -/
def joinMenuItems (db : DB) (rid : Nat) (mids : List Int) : List MenuJoinRow :=
  db.lineItems.filterMap (fun li =>
    if li.reservation_id == rid && mids.contains li.menu_id then
      match db.menus.find? (fun m => m.id == li.menu_id) with
      | some m => some ⟨m.id, m.name, m.price, li.quantity⟩
      | none => none
    else none)

/-- The transactional tail of create_reservation: insert the reservation
row and its line items, committing only when every insert succeeded; any
failure rolls the whole transaction back to the original store.  `calls`
are the gateway calls already made by the payment-verification step. -/
def persistReservation (db : DB) (req : ReservationCreate) (uid : Nat)
    (pid : Option String) (amount : Option Int) (pstat : String)
    (calls : List GatewayCall) :
    Except ApiError CreateReservationResponse × DB × List GatewayCall :=
  match insertReservation db uid req pid amount pstat with
  | .error _ => (.error .internalError, db, calls)
  | .ok (db1, row) =>
    match insertLineItems db1 row.id req.menu_items with
    | .error _ => (.error .internalError, db, calls)
    | .ok db2 =>
      (.ok { row := row
             menu_items :=
               if req.menu_items.isEmpty then none
               else some (joinMenuItems db2 row.id
                           (req.menu_items.map (fun it => it.menu_id))) },
       db2, calls)

/-- Handler of POST /api/reservations.  When a payment intent id is
supplied, its status is retrieved from the gateway before any store write;
a non-succeeded status aborts with paymentIncomplete.  Without one, the
reservation is recorded with payment status pending and no amount and the
gateway is never contacted. -/
def create_reservation (apiKeySet : Bool) (gw : Gateway) (db : DB)
    (req : ReservationCreate) (uid : Nat) :
    Except ApiError CreateReservationResponse × DB × List GatewayCall :=
  match req.payment_intent_id with
  | some pid =>
    if !apiKeySet then (.error .stripeKeyMissing, db, [])
    else
      match gw.retrieveIntent pid with
      | .error _ => (.error .internalError, db, [.retrieveIntent pid])
      | .ok intent =>
        if intent.status != "succeeded" then
          (.error .paymentIncomplete, db, [.retrieveIntent pid])
        else
          persistReservation db req uid (some pid) (some intent.amount)
            "succeeded" [.retrieveIntent pid]
  | none => persistReservation db req uid none none "pending" []

/-! ## POST /api/payments/refund/\x7bpayment_intent_id\x7d -/

/-- Response of refund_payment. -/
structure RefundResponse where
  refund_id : String
  amount : Int
  status : String
deriving Repr, DecidableEq

/-- UPDATE reservations SET payment_status = s WHERE id = rid. -/
def updatePaymentStatus (db : DB) (rid : Nat) (s : String) : DB :=
  { db with
    reservations := db.reservations.map (fun r =>
      if r.id == rid then { r with payment_status := s } else r) }

/-- Handler of POST /api/payments/refund/\x7bpayment_intent_id\x7d: look the
reservation up by (payment_intent_id, user_id), reject when already
refunded before any gateway call, then retrieve the intent, require status
succeeded, require a string latest_charge, issue the refund, and mark the
reservation refunded. -/
def refund_payment (apiKeySet : Bool) (gw : Gateway) (db : DB)
    (pid : String) (uid : Nat) :
    Except ApiError RefundResponse × DB × List GatewayCall :=
  if !apiKeySet then (.error .stripeKeyMissing, db, [])
  else
    match db.reservations.find? (fun r =>
        r.payment_intent_id == some pid && r.user_id == uid) with
    | none => (.error .notFound, db, [])
    | some r =>
      if r.payment_status == "refunded" then (.error .alreadyRefunded, db, [])
      else
        match gw.retrieveIntent pid with
        | .error _ => (.error .stripeError, db, [.retrieveIntent pid])
        | .ok intent =>
          if intent.status != "succeeded" then
            (.error .paymentNotSucceeded, db, [.retrieveIntent pid])
          else
            match intent.latest_charge with
            | none => (.error .chargeNotFound, db, [.retrieveIntent pid])
            | some charge =>
              match gw.createRefund charge with
              | .error _ =>
                (.error .stripeError, db,
                 [.retrieveIntent pid, .createRefund charge])
              | .ok rf =>
                (.ok ⟨rf.id, rf.amount, rf.status⟩,
                 updatePaymentStatus db r.id "refunded",
                 [.retrieveIntent pid, .createRefund charge])

/-! ## DELETE /api/reservations/\x7breservation_id\x7d -/

/-- The refund sub-fields put into the cancel response. -/
structure RefundInfo where
  refund_id : String
  amount : Int
  status : String
deriving Repr, DecidableEq

/-- Response of cancel_reservation: the refund field is present exactly
when refund_info was set. -/
structure CancelResponse where
  reservation_id : Nat
  refund : Option RefundInfo
deriving Repr, DecidableEq

/-- DELETE FROM reservations WHERE id = rid AND user_id = uid, with the
ON DELETE CASCADE removal of the deleted reservations' line items. -/
def deleteReservation (db : DB) (rid uid : Nat) : DB :=
  let deleted := db.reservations.filter (fun r =>
    r.id == rid && r.user_id == uid)
  { db with
    reservations := db.reservations.filter (fun r =>
      !(r.id == rid && r.user_id == uid))
    lineItems := db.lineItems.filter (fun li =>
      !(deleted.any (fun r => r.id == li.reservation_id))) }

/-- The guarded refund sub-sequence of cancel_reservation (the try/except
block): retrieve the intent, confirm it is still succeeded, require a
string latest_charge, issue the refund.  Every gateway failure is caught,
yielding no refund info; refund info is set exactly when the gateway
created a refund. -/
def cancelRefundStep (apiKeySet : Bool) (gw : Gateway) (pid : String) :
    Option RefundInfo × List GatewayCall :=
  if !apiKeySet then (none, [])
  else
    match gw.retrieveIntent pid with
    | .error _ => (none, [.retrieveIntent pid])
    | .ok intent =>
      if intent.status == "succeeded" then
        match intent.latest_charge with
        | some charge =>
          match gw.createRefund charge with
          | .error _ => (none, [.retrieveIntent pid, .createRefund charge])
          | .ok rf =>
            (some ⟨rf.id, rf.amount, rf.status⟩,
             [.retrieveIntent pid, .createRefund charge])
        | none => (none, [.retrieveIntent pid])
      else (none, [.retrieveIntent pid])

/-- Handler of DELETE /api/reservations/\x7breservation_id\x7d: look the
reservation up by (id, user_id) in one predicate, run the advisory refund
sub-sequence when the reservation carries a succeeded payment, mark the
row refunded when a refund was issued, then delete the row (cascading to
its line items) and commit. -/
def cancel_reservation (apiKeySet : Bool) (gw : Gateway) (db : DB)
    (rid uid : Nat) :
    Except ApiError CancelResponse × DB × List GatewayCall :=
  match db.reservations.find? (fun r => r.id == rid && r.user_id == uid) with
  | none => (.error .notFound, db, [])
  | some r =>
    let step :=
      match r.payment_intent_id with
      | some pid =>
        if r.payment_status == "succeeded" then cancelRefundStep apiKeySet gw pid
        else (none, [])
      | none => (none, [])
    let db1 := if step.1.isSome then updatePaymentStatus db rid "refunded" else db
    (.ok { reservation_id := rid, refund := step.1 },
     deleteReservation db1 rid uid, step.2)

/-! ## Concrete fixtures (used by the closed instances of the theorems) -/

/-- Menu fixture: the ramen item, price 850, available. -/
def menuA : Menu := ⟨1, "ramen", 850, true⟩

/-- Menu fixture: the drink item, price 200, available. -/
def menuB : Menu := ⟨2, "drink", 200, true⟩

/-- Menu fixture: an unavailable item, price 550. -/
def menuC : Menu := ⟨3, "soldout", 550, false⟩

/-- Store fixture: one user, three menu items, no reservations. -/
def dbEx : DB := ⟨[7], [menuA, menuB, menuC], [], [], 1⟩

/-- Reservation fixture with a succeeded payment. -/
def resPaid : ReservationRow :=
  ⟨11, 7, "2026-10-12", "18:00", 2, none, "pending", some "pi_1", some 1700,
   "succeeded"⟩

/-- Reservation fixture already refunded. -/
def resRefunded : ReservationRow :=
  ⟨12, 7, "2026-10-13", "19:00", 3, none, "pending", some "pi_2", some 850,
   "refunded"⟩

/-- Store fixture holding the two reservations above plus a line item. -/
def dbRes : DB :=
  ⟨[7, 8], [menuA, menuB, menuC], [resPaid, resRefunded], [⟨11, 1, 2⟩], 13⟩

/-- Gateway fixture whose calls all succeed. -/
def gwOk : Gateway where
  createIntent := fun _ => .ok ⟨"cs_test", "pi_new"⟩
  retrieveIntent := fun _ => .ok ⟨"succeeded", 1700, some "ch_1"⟩
  createRefund := fun _ => .ok ⟨"re_1", 1700, "succeeded"⟩

/-- Gateway fixture whose retrieve reports a non-succeeded intent. -/
def gwPending : Gateway where
  createIntent := fun _ => .ok ⟨"cs_test", "pi_new"⟩
  retrieveIntent := fun _ => .ok ⟨"requires_payment_method", 0, none⟩
  createRefund := fun _ => .error ()

/-- Gateway fixture where every call raises. -/
def gwDown : Gateway where
  createIntent := fun _ => .error ()
  retrieveIntent := fun _ => .error ()
  createRefund := fun _ => .error ()

/-- Gateway fixture: retrieve succeeds but latest_charge is not a string. -/
def gwNoCharge : Gateway where
  createIntent := fun _ => .ok ⟨"cs_test", "pi_new"⟩
  retrieveIntent := fun _ => .ok ⟨"succeeded", 1700, none⟩
  createRefund := fun _ => .error ()

/-- Request fixture carrying a payment intent reference. -/
def reqPaid : ReservationCreate :=
  ⟨"2026-10-12", "18:00", 2, none, [⟨1, 2⟩], some "pi_1"⟩

/-- Request fixture with no payment intent reference. -/
def reqNoPid : ReservationCreate :=
  ⟨"2026-10-12", "18:00", 2, none, [⟨1, 2⟩], none⟩

/-- Request fixture whose line items reference a non-existent menu id. -/
def reqBadMenu : ReservationCreate :=
  ⟨"2026-10-12", "18:00", 2, none, [⟨99, 1⟩], none⟩

/-! ## Theorems -/

/-- C7: an authenticated payment-intent-creation request with an empty item
list always fails with the NoItemsSelected validation error (never any
other error), and the gateway is never called, for every store and every
gateway (given the gateway api key is configured, which the handler checks
first). -/
theorem create_payment_intent_empty_items (gw : Gateway) (db : DB) (uid : Nat) :
    create_payment_intent true gw db [] uid = (.error .noItemsSelected, []) := by
  simp [create_payment_intent]

/-- C2: when a create-reservation request supplies a payment-intent
reference and the gateway reports a status other than succeeded, the
handler retrieves exactly that intent, fails with paymentIncomplete, and
leaves the store untouched (no reservation row, no line-item row). -/
theorem create_reservation_payment_incomplete
    (gw : Gateway) (db : DB) (req : ReservationCreate) (uid : Nat)
    (pid : String) (intent : PaymentIntent)
    (hpid : req.payment_intent_id = some pid)
    (hret : gw.retrieveIntent pid = .ok intent)
    (hst : intent.status ≠ "succeeded") :
    create_reservation true gw db req uid =
      (.error .paymentIncomplete, db, [.retrieveIntent pid]) := by
  simp [create_reservation, hpid, hret, hst]

/-- Closed instance of C2: a pending intent makes create-reservation fail
with paymentIncomplete and no store change. -/
theorem create_reservation_payment_incomplete_witness :
    create_reservation true gwPending dbEx reqPaid 7 =
      (.error .paymentIncomplete, dbEx, [.retrieveIntent "pi_1"]) :=
  create_reservation_payment_incomplete gwPending dbEx reqPaid 7 "pi_1"
    ⟨"requires_payment_method", 0, none⟩ rfl rfl (by decide)

/-- C6: a direct refund request whose payment-intent id matches a
reservation of the caller that is already refunded fails with the
alreadyRefunded conflict, makes no gateway call at all, and leaves the
store unchanged. -/
theorem refund_payment_already_refunded
    (gw : Gateway) (db : DB) (pid : String) (uid : Nat) (r : ReservationRow)
    (hfind : db.reservations.find? (fun x =>
        x.payment_intent_id == some pid && x.user_id == uid) = some r)
    (hst : r.payment_status = "refunded") :
    refund_payment true gw db pid uid = (.error .alreadyRefunded, db, []) := by
  simp [refund_payment, hfind, hst]

/-- Closed instance of C6: refunding the already-refunded reservation of
the fixture store yields the conflict with no gateway call. -/
theorem refund_payment_already_refunded_witness :
    refund_payment true gwOk dbRes "pi_2" 7 = (.error .alreadyRefunded, dbRes, []) :=
  refund_payment_already_refunded gwOk dbRes "pi_2" 7 resRefunded rfl rfl

/-- C5: the cancel lookup filters by id and owner in one predicate: a
reservation id owned by a different user and a non-existent reservation id
both yield notFound with no state change and no gateway call, and the two
runs are observationally identical. -/
theorem cancel_reservation_ownership_opaque
    (a : Bool) (gw : Gateway) (db : DB) (rid rid2 uid : Nat)
    (r : ReservationRow)
    (_hr : r ∈ db.reservations) (_hid : r.id = rid) (hown : r.user_id ≠ uid)
    (hkey : ∀ x ∈ db.reservations, x.id = rid → x = r)
    (hfresh : ∀ x ∈ db.reservations, x.id ≠ rid2) :
    cancel_reservation a gw db rid uid = (.error .notFound, db, []) ∧
    cancel_reservation a gw db rid2 uid = (.error .notFound, db, []) ∧
    cancel_reservation a gw db rid uid = cancel_reservation a gw db rid2 uid := by
  have h1 : db.reservations.find? (fun x => x.id == rid && x.user_id == uid) = none := by
    rw [List.find?_eq_none]
    intro x hx
    simp only [Bool.and_eq_true, beq_iff_eq, not_and]
    intro hxid
    rw [hkey x hx hxid]
    exact hown
  have h2 : db.reservations.find? (fun x => x.id == rid2 && x.user_id == uid) = none := by
    rw [List.find?_eq_none]
    intro x hx
    simp only [Bool.and_eq_true, beq_iff_eq, not_and]
    intro hxid
    exact absurd hxid (hfresh x hx)
  refine ⟨?_, ?_, ?_⟩ <;> simp [cancel_reservation, h1, h2]

/-- Closed instance of C5: cancelling reservation 11 (owned by user 7) as
user 8, and cancelling the non-existent reservation 99 as user 8, both
return notFound and leave the store untouched. -/
theorem cancel_reservation_ownership_opaque_witness :
    cancel_reservation true gwOk dbRes 11 8 = (.error .notFound, dbRes, []) ∧
    cancel_reservation true gwOk dbRes 99 8 = (.error .notFound, dbRes, []) ∧
    cancel_reservation true gwOk dbRes 11 8 = cancel_reservation true gwOk dbRes 99 8 :=
  cancel_reservation_ownership_opaque true gwOk dbRes 11 99 8 resPaid
    (by decide) rfl (by decide) (by decide) (by decide)

/-- Every reservation surviving a delete-by-(id, owner) fails the delete
predicate: the targeted row is gone. -/
theorem deleteReservation_removes (db : DB) (rid uid : Nat) :
    ∀ x ∈ (deleteReservation db rid uid).reservations,
      ¬(x.id = rid ∧ x.user_id = uid) := by
  intro x hx
  simp only [deleteReservation, List.mem_filter, Bool.not_eq_eq_eq_not,
    Bool.not_true, Bool.and_eq_false_imp, beq_iff_eq] at hx
  intro ⟨h1, h2⟩
  exact absurd (hx.2 h1) (by simpa using h2)

/-- The refund sub-sequence of cancel sets refund info exactly when the
gateway actually created a refund for some charge it was asked about. -/
theorem cancelRefundStep_refund_iff (a : Bool) (gw : Gateway) (pid : String) :
    (cancelRefundStep a gw pid).1.isSome = true ↔
      ∃ c rf, GatewayCall.createRefund c ∈ (cancelRefundStep a gw pid).2 ∧
        gw.createRefund c = .ok rf := by
  cases a with
  | false => simp [cancelRefundStep]
  | true =>
    cases hret : gw.retrieveIntent pid with
    | error e => simp [cancelRefundStep, hret]
    | ok intent =>
      by_cases hs : intent.status = "succeeded"
      · cases hch : intent.latest_charge with
        | none => simp [cancelRefundStep, hret, hs, hch]
        | some charge =>
          cases hcr : gw.createRefund charge with
          | error e => simp [cancelRefundStep, hret, hs, hch, hcr]
          | ok rf => simp [cancelRefundStep, hret, hs, hch, hcr]
      · simp [cancelRefundStep, hret, hs]

/-- C4: cancelling an owned reservation whose payment succeeded always
returns success and deletes the reservation row, whatever the gateway does
in the refund sub-sequence (retrieve intent, confirm status, extract
charge, issue refund); the response carries refund details exactly when a
refund was actually issued by the gateway. -/
theorem cancel_reservation_refund_advisory
    (a : Bool) (gw : Gateway) (db : DB) (rid uid : Nat)
    (r : ReservationRow) (pid : String)
    (hfind : db.reservations.find? (fun x =>
        x.id == rid && x.user_id == uid) = some r)
    (hpid : r.payment_intent_id = some pid)
    (hst : r.payment_status = "succeeded") :
    ∃ resp : CancelResponse,
      (cancel_reservation a gw db rid uid).1 = .ok resp ∧
      resp.reservation_id = rid ∧
      (∀ x ∈ (cancel_reservation a gw db rid uid).2.1.reservations,
        ¬(x.id = rid ∧ x.user_id = uid)) ∧
      (resp.refund.isSome = true ↔
        ∃ c rf, GatewayCall.createRefund c ∈ (cancel_reservation a gw db rid uid).2.2 ∧
          gw.createRefund c = .ok rf) := by
  refine ⟨⟨rid, (cancelRefundStep a gw pid).1⟩, ?_, rfl, ?_, ?_⟩ <;>
    simp only [cancel_reservation, hfind, hpid, hst, beq_self_eq_true, if_true]
  · intro x hx
    exact deleteReservation_removes _ rid uid x hx
  · exact cancelRefundStep_refund_iff a gw pid

/-- Closed instance of C4: with the gateway down (every call raising), the
cancellation of the paid reservation still succeeds, the row is deleted,
and the response carries no refund details. -/
theorem cancel_reservation_refund_advisory_witness :
    ∃ resp : CancelResponse,
      (cancel_reservation true gwDown dbRes 11 7).1 = .ok resp ∧
      resp.reservation_id = 11 ∧
      (∀ x ∈ (cancel_reservation true gwDown dbRes 11 7).2.1.reservations,
        ¬(x.id = 11 ∧ x.user_id = 7)) ∧
      (resp.refund.isSome = true ↔
        ∃ c rf, GatewayCall.createRefund c ∈ (cancel_reservation true gwDown dbRes 11 7).2.2 ∧
          gwDown.createRefund c = .ok rf) :=
  cancel_reservation_refund_advisory true gwDown dbRes 11 7 resPaid "pi_1"
    rfl rfl rfl

/-- C9: in the cancel flow, when the payment succeeded but the retrieved
intent's latest_charge is not a string, no refund is attempted (the only
gateway call is the retrieval), no error is surfaced, the reservation is
still deleted, and the response has no refund field. -/
theorem cancel_reservation_nonstring_charge
    (gw : Gateway) (db : DB) (rid uid : Nat)
    (r : ReservationRow) (pid : String) (intent : PaymentIntent)
    (hfind : db.reservations.find? (fun x =>
        x.id == rid && x.user_id == uid) = some r)
    (hpid : r.payment_intent_id = some pid)
    (hst : r.payment_status = "succeeded")
    (hret : gw.retrieveIntent pid = .ok intent)
    (hist : intent.status = "succeeded")
    (hch : intent.latest_charge = none) :
    cancel_reservation true gw db rid uid =
      (.ok ⟨rid, none⟩, deleteReservation db rid uid, [.retrieveIntent pid]) ∧
    ∀ x ∈ (deleteReservation db rid uid).reservations,
      ¬(x.id = rid ∧ x.user_id = uid) := by
  constructor
  · simp [cancel_reservation, hfind, hpid, hst, cancelRefundStep, hret, hist, hch]
  · exact deleteReservation_removes db rid uid

/-- Closed instance of C9: the retrieved intent reports succeeded but a
non-string latest_charge; the cancellation succeeds with no refund field
and only the retrieval call. -/
theorem cancel_reservation_nonstring_charge_witness :
    cancel_reservation true gwNoCharge dbRes 11 7 =
      (.ok ⟨11, none⟩, deleteReservation dbRes 11 7, [.retrieveIntent "pi_1"]) ∧
    ∀ x ∈ (deleteReservation dbRes 11 7).reservations,
      ¬(x.id = 11 ∧ x.user_id = 7) :=
  cancel_reservation_nonstring_charge gwNoCharge dbRes 11 7 resPaid "pi_1"
    ⟨"succeeded", 1700, none⟩ rfl rfl rfl rfl rfl rfl

/-- When every requested pair finds an available menu row, the pricing
loop succeeds and computes the accumulator plus the sum of price times
quantity over the pairs. -/
theorem computeTotal_ok (menus : List Menu) :
    ∀ (items : List MenuItemRequest) (acc : Int),
      (∀ it ∈ items, ∃ m, menus.find? (fun x => x.id == it.menu_id) = some m ∧
        m.is_available = true) →
      computeTotal menus acc items = .ok (acc + pairTotal menus items)
  | [], acc, _ => by simp [computeTotal, pairTotal]
  | it :: rest, acc, h => by
    obtain ⟨m, hfind, havail⟩ := h it (List.mem_cons_self it rest)
    have hrest := computeTotal_ok menus rest (acc + m.price * it.quantity)
      (fun i hi => h i (List.mem_cons_of_mem it hi))
    simp only [computeTotal, hfind, havail, Bool.not_true, Bool.false_eq_true,
      if_false, hrest, pairTotal, List.map_cons, List.sum_cons, menuPrice]
    congr 1
    ring

/-- C3: with every referenced item present and available and a strictly
positive computed total, payment-intent creation computes the total as the
sum of price times quantity over the requested pairs, asks the gateway for
an intent of exactly that amount (in the fixed currency, tagged with the
user), and returns the gateway's client secret and intent id together with
that amount. -/
theorem create_payment_intent_total
    (gw : Gateway) (db : DB) (items : List MenuItemRequest) (uid : Nat)
    (ci : CreatedIntent)
    (hfound : ∀ it ∈ items, ∃ m, db.menus.find? (fun x => x.id == it.menu_id) = some m ∧
      m.is_available = true)
    (hpos : 0 < pairTotal db.menus items)
    (hgw : gw.createIntent (pairTotal db.menus items) = .ok ci) :
    create_payment_intent true gw db items uid =
      (.ok ⟨ci.client_secret, ci.id, pairTotal db.menus items⟩,
       [.createIntent (pairTotal db.menus items) "jpy" uid]) := by
  have hne : items.isEmpty = false := by
    cases items with
    | nil => simp [pairTotal] at hpos
    | cons a l => rfl
  have htot := computeTotal_ok db.menus items 0 hfound
  rw [zero_add] at htot
  simp [create_payment_intent, hne, htot, hgw, not_le.mpr hpos]

/-- Closed instance of C3 (the concrete scenario of the specification):
the 850-yen item requested with quantity 2 gives total 1700, the gateway
is called with amount 1700, and the response reports amount 1700. -/
theorem create_payment_intent_total_witness :
    create_payment_intent true gwOk dbEx [⟨1, 2⟩] 7 =
      (.ok ⟨"cs_test", "pi_new", 1700⟩, [.createIntent 1700 "jpy" 7]) ∧
    pairTotal dbEx.menus [⟨1, 2⟩] = 1700 :=
  ⟨create_payment_intent_total gwOk dbEx [⟨1, 2⟩] 7 ⟨"cs_test", "pi_new"⟩
      (by intro it hit
          simp only [List.mem_singleton] at hit
          subst hit
          exact ⟨menuA, rfl, rfl⟩)
      (by decide) rfl,
   by decide⟩

/-- C10: the pricing loop does not validate individual quantities: a pair
with zero or negative quantity is accepted, contributes price times
quantity to the total, and the request still succeeds (intent created for
the reduced total) whenever the aggregate total stays strictly positive. -/
theorem create_payment_intent_no_quantity_validation
    (gw : Gateway) (db : DB) (items : List MenuItemRequest) (uid : Nat)
    (ci : CreatedIntent) (it : MenuItemRequest)
    (_hit : it ∈ items) (_hq : it.quantity ≤ 0)
    (hfound : ∀ i ∈ items, ∃ m, db.menus.find? (fun x => x.id == i.menu_id) = some m ∧
      m.is_available = true)
    (hpos : 0 < pairTotal db.menus items)
    (hgw : gw.createIntent (pairTotal db.menus items) = .ok ci) :
    create_payment_intent true gw db items uid =
      (.ok ⟨ci.client_secret, ci.id, pairTotal db.menus items⟩,
       [.createIntent (pairTotal db.menus items) "jpy" uid]) := by
  have hne : items.isEmpty = false := by
    cases items with
    | nil => simp [pairTotal] at hpos
    | cons a l => rfl
  have htot := computeTotal_ok db.menus items 0 hfound
  rw [zero_add] at htot
  simp [create_payment_intent, hne, htot, hgw, not_le.mpr hpos]

/-- Closed instance of C10: the drink requested with quantity -1 next to
two ramen reduces the total from 1700 to 1500, and the intent is created
for 1500 without any quantity validation error. -/
theorem create_payment_intent_no_quantity_validation_witness :
    (⟨2, -1⟩ : MenuItemRequest) ∈ ([⟨1, 2⟩, ⟨2, -1⟩] : List MenuItemRequest) ∧
    (⟨2, -1⟩ : MenuItemRequest).quantity ≤ 0 ∧
    create_payment_intent true gwOk dbEx [⟨1, 2⟩, ⟨2, -1⟩] 7 =
      (.ok ⟨"cs_test", "pi_new", 1500⟩, [.createIntent 1500 "jpy" 7]) :=
  ⟨by decide, by decide,
   create_payment_intent_no_quantity_validation gwOk dbEx [⟨1, 2⟩, ⟨2, -1⟩] 7
     ⟨"cs_test", "pi_new"⟩ ⟨2, -1⟩ (by decide) (by decide)
     (by intro i hi
         simp only [List.mem_cons, List.not_mem_nil, or_false] at hi
         rcases hi with hi | hi <;> subst hi
         · exact ⟨menuA, rfl, rfl⟩
         · exact ⟨menuB, rfl, rfl⟩)
     (by decide) rfl⟩

/-- A successful line-item insert appends exactly the new row. -/
theorem insertLineItem_ok_eq (db : DB) (rid : Nat) (it : MenuItemRequest)
    (db1 : DB) (h : insertLineItem db rid it = .ok db1) :
    db1 = { db with lineItems := db.lineItems ++ [⟨rid, it.menu_id, it.quantity⟩] } := by
  unfold insertLineItem at h
  split at h
  · cases h; rfl
  · cases h

/-- A successful reservation insert leaves the menus table unchanged. -/
theorem insertReservation_ok_menus (db : DB) (uid : Nat)
    (req : ReservationCreate) (pid : Option String) (amount : Option Int)
    (pstat : String) (db1 : DB) (row : ReservationRow)
    (h : insertReservation db uid req pid amount pstat = .ok (db1, row)) :
    db1.menus = db.menus := by
  unfold insertReservation at h
  split at h
  · cases h; rfl
  · cases h

/-- The line-item loop fails whenever some requested pair references a
menu id absent from the menus table (the foreign-key violation). -/
theorem insertLineItems_error_of_badMenu (rid : Nat) :
    ∀ (items : List MenuItemRequest) (db : DB) (it : MenuItemRequest),
      it ∈ items → (∀ m ∈ db.menus, m.id ≠ it.menu_id) →
      insertLineItems db rid items = .error ()
  | [], _, it, hmem, _ => absurd hmem (List.not_mem_nil it)
  | hd :: tl, db, it, hmem, hbad => by
    rcases List.mem_cons.mp hmem with heq | htl
    · subst heq
      have hcond : ¬ ((∃ m ∈ db.menus, m.id = it.menu_id) ∧ 0 < it.quantity ∧
          ¬ ∃ li ∈ db.lineItems, li.reservation_id = rid ∧ li.menu_id = it.menu_id) := by
        rintro ⟨⟨m, hm, hid⟩, -, -⟩
        exact hbad m hm hid
      simp only [insertLineItems, insertLineItem]
      rw [if_neg hcond]
    · cases h1 : insertLineItem db rid hd with
      | error u => simp [insertLineItems, h1]
      | ok db1 =>
        have hdb1 := insertLineItem_ok_eq db rid hd db1 h1
        subst hdb1
        simp only [insertLineItems, h1]
        exact insertLineItems_error_of_badMenu rid tl _ it htl hbad

/-- When an append-only transaction fails, persistReservation reports an
error and hands back the original store (the rollback). -/
theorem persistReservation_error_rollback (db : DB) (req : ReservationCreate)
    (uid : Nat) (pid : Option String) (amount : Option Int) (pstat : String)
    (calls : List GatewayCall) (e : ApiError)
    (h : (persistReservation db req uid pid amount pstat calls).1 = .error e) :
    (persistReservation db req uid pid amount pstat calls).2.1 = db := by
  rcases h1 : insertReservation db uid req pid amount pstat with u | ⟨db1, row⟩
  · simp [persistReservation, h1]
  · rcases h2 : insertLineItems db1 row.id req.menu_items with u | db2
    · simp [persistReservation, h1, h2]
    · simp [persistReservation, h1, h2] at h

/-- A request holding a pair whose menu id is absent from the menus table
makes the whole transactional tail fail and roll back. -/
theorem persistReservation_bad_item (db : DB) (req : ReservationCreate)
    (uid : Nat) (pid : Option String) (amount : Option Int) (pstat : String)
    (calls : List GatewayCall) (it : MenuItemRequest)
    (hmem : it ∈ req.menu_items)
    (hbad : ∀ m ∈ db.menus, m.id ≠ it.menu_id) :
    persistReservation db req uid pid amount pstat calls =
      (.error .internalError, db, calls) := by
  rcases h1 : insertReservation db uid req pid amount pstat with u | ⟨db1, row⟩
  · simp [persistReservation, h1]
  · have hmenus : db1.menus = db.menus :=
      insertReservation_ok_menus db uid req pid amount pstat db1 row h1
    have h2 : insertLineItems db1 row.id req.menu_items = .error () :=
      insertLineItems_error_of_badMenu row.id req.menu_items db1 it hmem
        (by rw [hmenus]; exact hbad)
    simp [persistReservation, h1, h2]

/-- C1: create-reservation is all-or-nothing.  First part: whenever the
handler reports any error, the store it hands back is exactly the initial
one (no reservation row and no line-item row from the request survive).
Second part: a request holding a line item that references a non-existent
catalog item always fails, and the store is unchanged. -/
theorem create_reservation_all_or_nothing :
    (∀ (a : Bool) (gw : Gateway) (db : DB) (req : ReservationCreate)
        (uid : Nat) (e : ApiError),
        (create_reservation a gw db req uid).1 = .error e →
        (create_reservation a gw db req uid).2.1 = db) ∧
    (∀ (a : Bool) (gw : Gateway) (db : DB) (req : ReservationCreate)
        (uid : Nat) (it : MenuItemRequest),
        it ∈ req.menu_items →
        (∀ m ∈ db.menus, m.id ≠ it.menu_id) →
        (∃ e, (create_reservation a gw db req uid).1 = .error e) ∧
        (create_reservation a gw db req uid).2.1 = db) := by
  constructor
  · intro a gw db req uid e h
    rcases hp : req.payment_intent_id with _ | pid <;>
      simp only [create_reservation, hp] at h ⊢
    · exact persistReservation_error_rollback db req uid none none "pending" [] e h
    · cases a with
      | false => simp
      | true =>
        simp only [Bool.not_true, Bool.false_eq_true, if_false] at h ⊢
        rcases hr : gw.retrieveIntent pid with u | intent <;>
          simp only [hr] at h ⊢
        by_cases hs : intent.status = "succeeded"
        · simp only [hs, bne_self_eq_false, Bool.false_eq_true, if_false] at h ⊢
          exact persistReservation_error_rollback db req uid (some pid)
            (some intent.amount) "succeeded" [.retrieveIntent pid] e h
        · have hbne : (intent.status != "succeeded") = true := bne_iff_ne.mpr hs
          simp only [hbne, if_true]
  · intro a gw db req uid it hmem hbad
    rcases hp : req.payment_intent_id with _ | pid <;>
      simp only [create_reservation, hp]
    · rw [persistReservation_bad_item db req uid none none "pending" [] it hmem hbad]
      exact ⟨⟨.internalError, rfl⟩, rfl⟩
    · cases a with
      | false => simp
      | true =>
        simp only [Bool.not_true, Bool.false_eq_true, if_false]
        rcases hr : gw.retrieveIntent pid with u | intent <;> simp only [hr]
        · exact ⟨⟨.internalError, rfl⟩, trivial⟩
        · by_cases hs : intent.status = "succeeded"
          · simp only [hs, bne_self_eq_false, Bool.false_eq_true, if_false]
            rw [persistReservation_bad_item db req uid (some pid)
              (some intent.amount) "succeeded" [.retrieveIntent pid] it hmem hbad]
            exact ⟨⟨.internalError, rfl⟩, rfl⟩
          · have hbne : (intent.status != "succeeded") = true := bne_iff_ne.mpr hs
            simp only [hbne, if_true]
            exact ⟨⟨.paymentIncomplete, rfl⟩, trivial⟩

/-- Closed instance of C1: a request whose line item references the
non-existent menu id 99 fails, and the store afterwards equals the store
before — no reservation row and no line-item row were persisted. -/
theorem create_reservation_all_or_nothing_witness :
    (∃ e, (create_reservation true gwOk dbEx reqBadMenu 7).1 = .error e) ∧
    (create_reservation true gwOk dbEx reqBadMenu 7).2.1 = dbEx :=
  create_reservation_all_or_nothing.2 true gwOk dbEx reqBadMenu 7 ⟨99, 1⟩
    (by decide) (by decide)

/-- A reservation insert for an existing user and positive party size
succeeds and appends exactly one row with the given payment fields. -/
theorem insertReservation_ok (db : DB) (uid : Nat) (req : ReservationCreate)
    (pid : Option String) (amount : Option Int) (pstat : String)
    (hu : uid ∈ db.users) (hp : 0 < req.number_of_people) :
    insertReservation db uid req pid amount pstat =
      .ok ({ db with
              reservations := db.reservations ++
                [⟨db.nextReservationId, uid, req.reservation_date,
                  req.reservation_time, req.number_of_people,
                  req.special_requests, "pending", pid, amount, pstat⟩]
              nextReservationId := db.nextReservationId + 1 },
           ⟨db.nextReservationId, uid, req.reservation_date,
            req.reservation_time, req.number_of_people, req.special_requests,
            "pending", pid, amount, pstat⟩) := by
  unfold insertReservation
  rw [if_pos ⟨hu, hp⟩]

/-- The line-item loop succeeds when every pair references an existing
menu, has positive quantity, the requested menu ids are pairwise distinct,
and no stored line item of the new reservation collides; it appends the
pairs in order and touches nothing else. -/
theorem insertLineItems_ok (rid : Nat) :
    ∀ (items : List MenuItemRequest) (db : DB),
      (∀ it ∈ items, (∃ m ∈ db.menus, m.id = it.menu_id) ∧ 0 < it.quantity) →
      (items.map (fun it => it.menu_id)).Nodup →
      (∀ li ∈ db.lineItems, li.reservation_id = rid →
        ∀ it ∈ items, li.menu_id ≠ it.menu_id) →
      ∃ db2, insertLineItems db rid items = .ok db2 ∧
        db2.reservations = db.reservations ∧
        db2.menus = db.menus ∧
        db2.lineItems = db.lineItems ++
          items.map (fun it => LineItem.mk rid it.menu_id it.quantity)
  | [], db, _, _, _ => ⟨db, by simp [insertLineItems]⟩
  | hd :: tl, db, hitems, hnodup, hinv => by
    have hhd := hitems hd (List.mem_cons_self hd tl)
    have hno : ¬ ∃ li ∈ db.lineItems, li.reservation_id = rid ∧
        li.menu_id = hd.menu_id := by
      rintro ⟨li, hli, hrid, hmid⟩
      exact hinv li hli hrid hd (List.mem_cons_self hd tl) hmid
    have h1 : insertLineItem db rid hd =
        .ok { db with lineItems := db.lineItems ++ [⟨rid, hd.menu_id, hd.quantity⟩] } := by
      unfold insertLineItem
      rw [if_pos ⟨hhd.1, hhd.2, hno⟩]
    have hnodup' : (tl.map (fun it => it.menu_id)).Nodup :=
      (List.nodup_cons.mp (by simpa using hnodup)).2
    have hhdnot : hd.menu_id ∉ tl.map (fun it => it.menu_id) :=
      (List.nodup_cons.mp (by simpa using hnodup)).1
    have hinv1 : ∀ li ∈ db.lineItems ++ [LineItem.mk rid hd.menu_id hd.quantity],
        li.reservation_id = rid → ∀ it ∈ tl, li.menu_id ≠ it.menu_id := by
      intro li hli hrid it hit
      rcases List.mem_append.mp hli with hold | hnew
      · exact hinv li hold hrid it (List.mem_cons_of_mem hd hit)
      · simp only [List.mem_singleton] at hnew
        subst hnew
        show hd.menu_id ≠ it.menu_id
        intro hcontra
        exact hhdnot (by
          rw [hcontra]
          exact List.mem_map_of_mem (fun i => i.menu_id) hit)
    obtain ⟨db2, hins, hres, hmen, hline⟩ :=
      insertLineItems_ok rid tl
        { db with lineItems := db.lineItems ++ [⟨rid, hd.menu_id, hd.quantity⟩] }
        (fun i hi => hitems i (List.mem_cons_of_mem hd hi))
        hnodup' hinv1
    refine ⟨db2, ?_, hres, hmen, ?_⟩
    · simp only [insertLineItems, h1]
      exact hins
    · rw [hline]
      simp

/-- C8: a create-reservation request with no payment-intent reference and
otherwise valid inputs succeeds without ever contacting the gateway, and
both the response row and the persisted reservation carry payment status
pending, no captured amount, and no payment-intent reference. -/
theorem create_reservation_without_payment
    (a : Bool) (gw : Gateway) (db : DB) (req : ReservationCreate) (uid : Nat)
    (hnone : req.payment_intent_id = none)
    (huser : uid ∈ db.users)
    (hpeople : 0 < req.number_of_people)
    (hitems : ∀ it ∈ req.menu_items,
      (∃ m ∈ db.menus, m.id = it.menu_id) ∧ 0 < it.quantity)
    (hnodup : (req.menu_items.map (fun it => it.menu_id)).Nodup)
    (hfresh : ∀ li ∈ db.lineItems, li.reservation_id ≠ db.nextReservationId) :
    ∃ resp : CreateReservationResponse,
      (create_reservation a gw db req uid).1 = .ok resp ∧
      resp.row.payment_status = "pending" ∧
      resp.row.amount = none ∧
      resp.row.payment_intent_id = none ∧
      (create_reservation a gw db req uid).2.2 = [] ∧
      resp.row ∈ (create_reservation a gw db req uid).2.1.reservations := by
  have h1 := insertReservation_ok db uid req none none "pending" huser hpeople
  obtain ⟨db2, hins, hres, hmen, hline⟩ :=
    insertLineItems_ok db.nextReservationId req.menu_items
      { db with
        reservations := db.reservations ++
          [⟨db.nextReservationId, uid, req.reservation_date,
            req.reservation_time, req.number_of_people, req.special_requests,
            "pending", none, none, "pending"⟩]
        nextReservationId := db.nextReservationId + 1 }
      hitems hnodup
      (fun li hli hrid => absurd hrid (hfresh li hli))
  refine ⟨⟨⟨db.nextReservationId, uid, req.reservation_date,
    req.reservation_time, req.number_of_people, req.special_requests,
    "pending", none, none, "pending"⟩,
    if req.menu_items.isEmpty then none
    else some (joinMenuItems db2 db.nextReservationId
                 (req.menu_items.map (fun it => it.menu_id)))⟩,
    ?_, rfl, rfl, rfl, ?_, ?_⟩ <;>
    simp only [create_reservation, hnone, persistReservation, h1, hins]
  · rw [hres]
    simp

/-- Closed instance of C8: booking without a payment intent in the fixture
store succeeds, no gateway call is made, and the persisted row carries
payment status pending with no amount. -/
theorem create_reservation_without_payment_witness :
    ∃ resp : CreateReservationResponse,
      (create_reservation true gwOk dbEx reqNoPid 7).1 = .ok resp ∧
      resp.row.payment_status = "pending" ∧
      resp.row.amount = none ∧
      resp.row.payment_intent_id = none ∧
      (create_reservation true gwOk dbEx reqNoPid 7).2.2 = [] ∧
      resp.row ∈ (create_reservation true gwOk dbEx reqNoPid 7).2.1.reservations :=
  create_reservation_without_payment true gwOk dbEx reqNoPid 7
    rfl (by decide) (by decide) (by decide) (by decide) (by decide)

end Ramen
